import Mathlib

/-!
Verification development for the mcpsquared workflow-generation pipeline.

The Python sources are shallowly embedded: pure string/list logic is
translated directly; the external collaborators (MCP transport sessions,
the LLM agent loop, the filesystem) are abstracted as explicit `Except`
outcome parameters and as returned lists of (path, content) file writes.
Python dicts with a fixed key set are embedded as ordered association
lists over a small JSON-like value type.
-/

set_option maxHeartbeats 1000000

/-- Python-style result values (strings, ints, bools, and the string lists
that are the only list-valued fields the phase tools return). -/
inductive PyVal where
  | pstr : String → PyVal
  | pnat : Nat → PyVal
  | pbool : Bool → PyVal
  | plist : List String → PyVal
deriving DecidableEq

/-- An ordered Python dict with string keys, as returned by the phase tools. -/
abbrev PyDict := List (String × PyVal)

/-- A raised Python exception: the `str(e)` message and `traceback.format_exc()`. -/
structure PyExc where
  msg : String
  tb : String
deriving DecidableEq

/-- `lo.startsWith pat` on character lists: `pat` is an initial segment of `lo`. -/
def listStartsWith : List Char → List Char → Bool
  | _, [] => true
  | [], _ :: _ => false
  | a :: as, b :: bs => a == b && listStartsWith as bs

/-- Substring occurrence test on character lists (Python `pat in hay`). -/
def hasSub (hay pat : List Char) : Bool :=
  match hay with
  | [] => listStartsWith [] pat
  | _ :: t => listStartsWith hay pat || hasSub t pat

/-- Python `pat in s` for strings. -/
def strContains (s pat : String) : Bool := hasSub s.data pat.data

/-- Does the character list contain two consecutive underscores? -/
def hasUU : List Char → Bool
  | [] => false
  | [_] => false
  | c :: c2 :: rest => (c == '_' && c2 == '_') || hasUU (c2 :: rest)

/-- Helper: cons a character onto the first token of a split result. -/
def consHead (c : Char) : List (List Char) → List (List Char)
  | [] => [[c]]
  | t :: ts => (c :: t) :: ts

/-- Python `s.split("__")`: leftmost, non-overlapping splitting on a double
underscore, on character lists. -/
def splitDU : List Char → List (List Char)
  | [] => [[]]
  | [c] => [[c]]
  | c :: c2 :: rest =>
    if c == '_' && c2 == '_' then [] :: splitDU rest
    else consHead c (splitDU (c2 :: rest))

/-- Python `s.split("__")` for strings. -/
def pySplitUU (s : String) : List String :=
  (splitDU s.data).map (fun l => String.mk l)

/-- Characters stripped by Python `str.strip()`. -/
def isPySpace (c : Char) : Bool :=
  c = ' ' || c = '\t' || c = '\n' || c = '\r' || c = '\x0b' || c = '\x0c'

/-- Python `str.strip()` on character lists. -/
def pyStrip (l : List Char) : List Char :=
  ((l.dropWhile isPySpace).reverse.dropWhile isPySpace).reverse

/-- `os.path.join(a, b)` for a single relative-or-absolute component `b`
(POSIX semantics, as used by the phase tools; `pathlib`'s `/` agrees on the
slash-normalized inputs the pipeline produces). -/
def joinPath (a b : String) : String :=
  if listStartsWith b.data ['/'] then b
  else if a = "" then b
  else if listStartsWith a.data.reverse ['/'] then a ++ b
  else a ++ "/" ++ b

/-- `os.path.dirname(p)` (POSIX): everything before the last slash, with
trailing slashes stripped unless the head is all slashes. `pathlib`'s
`.parent` agrees on the slash-normalized inputs the pipeline produces. -/
def dirname (p : String) : String :=
  match p.data.reverse.dropWhile (fun c => c ≠ '/') with
  | [] => ""
  | headRev@(_ :: _) =>
    if headRev.all (fun c => c = '/') then String.mk headRev.reverse
    else String.mk (headRev.dropWhile (fun c => c = '/')).reverse

/-- Drop one trailing underscore-delimited segment from a reversed character
list; `none` when no underscore remains. -/
def cutU (rl : List Char) : Option (List Char) :=
  match rl.dropWhile (fun c => c ≠ '_') with
  | [] => none
  | _ :: rest => some rest

/-- Python `s.rsplit('_', 2)[0]`: the string with its last two
underscore-delimited segments removed (as many as exist). -/
def rsplitHead2 (s : String) : String :=
  match cutU s.data.reverse with
  | none => s
  | some r1 =>
    match cutU r1 with
    | none => String.mk r1.reverse
    | some r2 => String.mk r2.reverse

/-- The first characters up to (not including) a newline. -/
def takeLine (l : List Char) : List Char := l.takeWhile (fun c => c ≠ '\n')

/-- `re.search(marker + "([^\n]+)", r)`: the capture at the leftmost position
where the marker matches and is followed by at least one non-newline
character; the capture is the maximal run of non-newline characters. -/
def searchMarker (marker : List Char) : List Char → Option (List Char)
  | [] => none
  | r@(_ :: t) =>
    if listStartsWith r marker && !(takeLine (r.drop marker.length)).isEmpty then
      some (takeLine (r.drop marker.length))
    else searchMarker marker t

/-- Specification-side reading of the claim: the rest of the line after the
first occurrence of the marker, with no non-emptiness requirement. -/
def firstOccTail (marker : List Char) : List Char → Option (List Char)
  | [] => none
  | r@(_ :: t) =>
    if listStartsWith r marker then some (takeLine (r.drop marker.length))
    else firstOccTail marker t

/-- Standardized error response from `helpers._build_error_response`. -/
def buildErrorResponse (error_msg : String) (traceback_info : Option String) : PyDict :=
  [("status", PyVal.pstr "error"), ("error", PyVal.pstr error_msg)] ++
    (match traceback_info with
     | some tb => [("traceback", PyVal.pstr tb)]
     | none => [])

/-- The three-key error dict built inline by the merged server's except blocks. -/
def errorDict3 (e : PyExc) : PyDict :=
  [("status", PyVal.pstr "error"), ("error", PyVal.pstr e.msg),
   ("traceback", PyVal.pstr e.tb)]

/-- Modelled from the spec: a templated workflow argument
(`mcpsquared_base.models.schemas.TemplatedArg`, a collaborator package not
vendored in this repository): name, description, required flag defaulting
to true. -/
structure TemplatedArg where
  name : String
  description : String
  required : Bool := true
deriving DecidableEq

/-- Modelled from the spec: a workflow definition
(`mcpsquared_base.models.schemas.WorkflowConfig`, a collaborator package not
vendored in this repository). Fields as listed in the spec's data model. -/
structure WorkflowConfig where
  workflow_name : String
  description : String
  agent_config_name : String
  input_prompt : String
  templated_args : List TemplatedArg
  tool_sequence : List String
  domain : Option String
deriving DecidableEq

/-- Modelled from the spec: an agent configuration
(`mcpsquared_base.models.schemas.AgentConfig`, a collaborator package not
vendored in this repository). Fields as listed in the spec's data model. -/
structure AgentConfig where
  agent_name : String
  mcp_names : List String
  system_prompt : String
  allowed_tools : List String
  model : String
  provider : String
  max_steps : Nat
deriving DecidableEq

/-- One remote tool as returned by the discovery transport's tool listing:
a name, plus optional description and parameter schema (defaulted to empty
by the discovery code when absent). -/
structure RemoteTool where
  name : String
  description : String
  inputSchema : PyVal
deriving DecidableEq

/-- The tools artifact written by discovery (`mcp_tools_<name>.json`). -/
structure ToolsData where
  mcp_name : String
  tools : List String
  schemas : List (String × String × PyVal)
deriving DecidableEq

namespace SchemaTools

/-- `schema_tools.extract_mcp_names_from_tools`: the distinct second
segments of the `mcp__`-prefixed entries of `allowed_tools` (the Python
builds a set; membership is the meaningful content, dedup order is not). -/
def extract_mcp_names_from_tools (allowed_tools : List String) : List String :=
  (allowed_tools.filterMap (fun tool =>
    if listStartsWith tool.data ("mcp__".data) && decide (3 ≤ (pySplitUU tool).length)
    then (pySplitUU tool).get? 1 else none)).dedup

/-- `schema_tools.create_agent_config`: builds a validated AgentConfig whose
`mcp_names` is derived from the allowed tools. -/
def create_agent_config (agent_name system_prompt : String)
    (allowed_tools : List String) (model provider : String) (max_steps : Nat) :
    AgentConfig :=
  { agent_name := agent_name
    mcp_names := extract_mcp_names_from_tools allowed_tools
    system_prompt := system_prompt
    allowed_tools := allowed_tools
    model := model
    provider := provider
    max_steps := max_steps }

end SchemaTools

namespace Phase1

/-- `helpers._validate_mcp_config`: all of name/command/args present. -/
def _validate_mcp_config (config : PyDict) : Bool :=
  ["name", "command", "args"].all (fun field => (config.lookup field).isSome)

/-- `phase1._validate_config_and_test_connection`. The connection test is
abstracted by `conn`, the outcome of `create_session` + `list_tools` (number
of tools on success, the raised exception otherwise). The second component
counts session-creation calls made. -/
def _validate_config_and_test_connection (config : PyDict)
    (conn : Except PyExc Nat) : (Bool × String) × Nat :=
  if !(_validate_mcp_config config) then
    ((false, "Invalid MCP configuration format"), 0)
  else
    match conn with
    | Except.ok _ => ((true, "connection_tested: True, connection_resources: tool"), 1)
    | Except.error e => ((false, "Connection failed: " ++ e.msg), 1)

/-- `phase1._build_success_response`. -/
def _build_success_response (mcp_name : String) : PyDict :=
  [("status", PyVal.pstr "success"), ("phase", PyVal.pstr "1.1"),
   ("mcp_name", PyVal.pstr mcp_name), ("connection_tested", PyVal.pbool true),
   ("message", PyVal.pstr ("Successfully validated configuration for " ++ mcp_name ++ " MCP")),
   ("config_validated", PyVal.pbool true)]

/-- The name field of a config dict (used only on the validated path). -/
def configName (config : PyDict) : String :=
  match config.lookup "name" with
  | some (PyVal.pstr s) => s
  | _ => ""

/-- `phase1.phase1_1_install_mcp_tool` (phase_tools variant): validate,
test the connection, save the config (outcome `save`), and convert every
internal exception to a tagged error response. Returns the response dict
and the number of session-creation calls made. -/
def phase1_1_install_mcp_tool (config : PyDict) (conn : Except PyExc Nat)
    (save : Except PyExc Unit) : PyDict × Nat :=
  let r := _validate_config_and_test_connection config conn
  if !r.1.1 then (buildErrorResponse r.1.2 none, r.2)
  else
    match save with
    | Except.error e =>
      (buildErrorResponse ("Phase 1.1 failed: " ++ e.msg) (some e.tb), r.2)
    | Except.ok _ => (_build_success_response (configName config), r.2)

/-- The namespacing transform applied to every discovered tool:
`mcp__{name}__{tool.name}`. -/
def prefixedToolName (mcp_name raw : String) : String :=
  "mcp__" ++ mcp_name ++ "__" ++ raw

/-- `phase1._discover_real_mcp_tools`: prefix every listed tool and collect
names and schemas. The session listing is the `available_tools` argument. -/
def _discover_real_mcp_tools (mcp_name : String) (available_tools : List RemoteTool) :
    ToolsData :=
  { mcp_name := mcp_name
    tools := available_tools.map (fun t => prefixedToolName mcp_name t.name)
    schemas := available_tools.map (fun t =>
      (prefixedToolName mcp_name t.name, t.description, t.inputSchema)) }

end Phase1

namespace Phase2

/-- The literal marker phrase for workflow-design extraction. -/
def wfMarker : List Char := ("Workflows written to ").data

/-- The literal marker phrase for agent-config extraction. -/
def cfgMarker : List Char := ("Agent configs written to ").data

/-- `phase2._extract_file_path_from_response`: regex capture of the rest of
the line after the marker (stripped), else a deterministic fallback path
derived from the tools file path and the service name. Never fails and
performs no filesystem existence check. -/
def _extract_file_path_from_response (workflow_designs tools_file_path mcp_name : String) :
    String :=
  match searchMarker wfMarker workflow_designs.data with
  | some cap => String.mk (pyStrip cap)
  | none => joinPath (dirname tools_file_path) ("workflow_designs_" ++ mcp_name ++ ".json")

/-- `phase2._extract_configs_dir_from_response`: regex capture of the rest
of the line after the marker (stripped), else the fallback
`dirname(designs_file_path)/agent_configs`. -/
def _extract_configs_dir_from_response (agent_configs designs_file_path : String) :
    String :=
  match searchMarker cfgMarker agent_configs.data with
  | some cap => String.mk (pyStrip cap)
  | none => joinPath (dirname designs_file_path) "agent_configs"

end Phase2

namespace Merged

/-- The operation buckets of the rule-based workflow synthesizer. -/
inductive Bucket where
  | create | readB | update | delete | query | other
deriving DecidableEq

/-- `any(op in nm for op in ops)`. -/
def containsAny (nm : String) (ops : List String) : Bool :=
  ops.any (fun op => strContains nm op)

/-- `tool.split('__')[-1] if '__' in tool else tool`: the un-prefixed name. -/
def unprefixedToolName (tool : String) : String :=
  if strContains tool "__" then (pySplitUU tool).getLastD "" else tool

/-- Python `str.lower()` (character-wise, as the keyword checks need). -/
def lowerStr (s : String) : String := String.mk (s.data.map Char.toLower)

/-- The elif chain of `phase2_1_create_workflow_configs`: classify one tool
name into its bucket, first matching bucket wins, unmatched tools are
`other`. -/
def bucketOf (tool : String) : Bucket :=
  let nm := lowerStr (unprefixedToolName tool)
  if containsAny nm ["create", "add", "new"] then Bucket.create
  else if containsAny nm ["read", "get", "list", "fetch"] then Bucket.readB
  else if containsAny nm ["update", "edit", "modify"] then Bucket.update
  else if containsAny nm ["delete", "remove"] then Bucket.delete
  else if containsAny nm ["query", "search", "find"] then Bucket.query
  else Bucket.other

/-- The per-bucket group built by the classification loop: the loop appends
each tool to exactly one bucket in discovery order, so a bucket's content is
the discovery-ordered sublist of tools classified into it. -/
def toolGroup (tools : List String) (b : Bucket) : List String :=
  tools.filter (fun t => bucketOf t == b)

/-- The CRUD workflow record built when create and read are both non-empty. -/
def crudWorkflowCfg (mcp_name : String) (seq : List String) : WorkflowConfig :=
  { workflow_name := mcp_name ++ "_crud_workflow"
    description := "Create, read, update, and delete operations for " ++ mcp_name
    agent_config_name := mcp_name ++ "_crud_agent"
    input_prompt := "Perform \x7b\x7boperation\x7d\x7d on \x7b\x7bentity\x7d\x7d with data: \x7b\x7bdata\x7d\x7d"
    templated_args := [⟨"operation", "CRUD operation to perform", true⟩,
                       ⟨"entity", "Entity to operate on", true⟩,
                       ⟨"data", "Data for the operation", true⟩]
    tool_sequence := seq
    domain := some "data_management" }

/-- The query workflow record built when the query bucket is non-empty. -/
def queryWorkflowCfg (mcp_name : String) (seq : List String) : WorkflowConfig :=
  { workflow_name := mcp_name ++ "_query_workflow"
    description := "Query and search operations for " ++ mcp_name
    agent_config_name := mcp_name ++ "_query_agent"
    input_prompt := "Search for \x7b\x7bquery\x7d\x7d with filters: \x7b\x7bfilters\x7d\x7d"
    templated_args := [⟨"query", "Search query", true⟩,
                       ⟨"filters", "Optional filters", false⟩]
    tool_sequence := seq
    domain := some "information_retrieval" }

/-- The catch-all general workflow record, always built. -/
def generalWorkflowCfg (mcp_name : String) (seq : List String) : WorkflowConfig :=
  { workflow_name := mcp_name ++ "_general_workflow"
    description := "General purpose workflow using all " ++ mcp_name ++ " tools"
    agent_config_name := mcp_name ++ "_general_agent"
    input_prompt := "\x7b\x7btask_description\x7d\x7d"
    templated_args := [⟨"task_description", "Description of task to perform", true⟩]
    tool_sequence := seq
    domain := some "general" }

/-- The workflow list emitted by `phase2_1_create_workflow_configs` for a
given service name and discovered tool list: optional CRUD workflow (first
two creates plus first two reads), optional query workflow (first three
query tools), always the general workflow (first ten tools). -/
def phase2_1_workflows (mcp_name : String) (tools : List String) : List WorkflowConfig :=
  (if !(toolGroup tools Bucket.create).isEmpty && !(toolGroup tools Bucket.readB).isEmpty
   then [crudWorkflowCfg mcp_name
          ((toolGroup tools Bucket.create).take 2 ++ (toolGroup tools Bucket.readB).take 2)]
   else []) ++
  (if !(toolGroup tools Bucket.query).isEmpty
   then [queryWorkflowCfg mcp_name ((toolGroup tools Bucket.query).take 3)]
   else []) ++
  [generalWorkflowCfg mcp_name (tools.take 10)]

/-- `merged_mcp_server.phase2_1_create_workflow_configs`: load the tools
file (outcome `load` carries the parsed `mcp_name` and `tools`), emit the
workflows next to the tools file, and convert every internal exception to a
tagged error dict. Returns the response dict and the workflow files
written. -/
def phase2_1_create_workflow_configs (tools_file_path : String)
    (load : Except PyExc (String × List String)) : PyDict × List WorkflowConfig :=
  match load with
  | Except.error e => (errorDict3 e, [])
  | Except.ok (mcp_name, tools) =>
    let workflows := phase2_1_workflows mcp_name tools
    ([("status", PyVal.pstr "success"), ("phase", PyVal.pstr "2.1"),
      ("workflows_created", PyVal.pnat workflows.length),
      ("workflows_directory", PyVal.pstr (joinPath (dirname tools_file_path) "workflows"))],
     workflows)

/-- `merged_mcp_server._analyze_tool_capabilities`: capability phrases for
the first five tools (matched against the full prefixed name). -/
def _analyze_tool_capabilities (tools : List String) : List String :=
  (tools.take 5).filterMap (fun tool =>
    if strContains tool "add" || strContains tool "create" then
      some "create new entities"
    else if strContains tool "query" || strContains tool "search" || strContains tool "get" then
      some "search and retrieve information"
    else if strContains tool "list" then
      some "list existing entities"
    else if strContains tool "update" || strContains tool "edit" then
      some "modify existing entities"
    else none)

/-- `merged_mcp_server._generate_system_prompt`. The Python joins a `set`
of phrases whose iteration order is unspecified; the embedding dedups the
list (no claim depends on the order). -/
def _generate_system_prompt (mcp_name : String) (tool_descriptions : List String) : String :=
  let capabilities :=
    if tool_descriptions.isEmpty then "perform various operations"
    else String.intercalate ", " tool_descriptions.dedup
  "You are an expert agent for the " ++ mcp_name ++ " system. You can " ++
    capabilities ++ " using the available tools. Execute tasks efficiently and provide clear results."

/-- `merged_mcp_server._create_agent_from_workflow`. -/
def _create_agent_from_workflow (workflow : WorkflowConfig) (mcp_name : String) :
    AgentConfig :=
  { agent_name := workflow.agent_config_name
    mcp_names := [mcp_name]
    system_prompt := _generate_system_prompt mcp_name
      (_analyze_tool_capabilities workflow.tool_sequence)
    allowed_tools := workflow.tool_sequence
    model := "gpt-5-mini"
    provider := "openai"
    max_steps := 20 }

/-- `merged_mcp_server._save_agent_configs`: one file
`<configs_dir>/<agent_name>.json` per dict entry. The writes are modelled
as the returned (path, content) list. -/
def savedAgentFiles (configs_dir : String) (agents : List (String × AgentConfig)) :
    List (String × AgentConfig) :=
  agents.map (fun p => (joinPath configs_dir (p.1 ++ ".json"), p.2))

/-- `merged_mcp_server._load_workflow_configs`: the glob-loaded workflow
list (file parsing abstracted), with the MCP name taken from the first
workflow's name via `rsplit('_', 2)[0]`, or `"unknown"` when the directory
holds no JSON files. -/
def _load_workflow_configs (files : List WorkflowConfig) :
    List WorkflowConfig × String :=
  (files,
   match files with
   | [] => "unknown"
   | w :: _ => rsplitHead2 w.workflow_name)

/-- The insertion loop of `_create_unique_agents`: walk the workflows in
order, adding an agent keyed by `agent_config_name` only when that key is
not already present. -/
def createUniqueAgentsGo (mcp_name : String) :
    List WorkflowConfig → List (String × AgentConfig) → List (String × AgentConfig)
  | [], acc => acc
  | w :: rest, acc =>
    if acc.any (fun p => p.1 == w.agent_config_name) then
      createUniqueAgentsGo mcp_name rest acc
    else
      createUniqueAgentsGo mcp_name rest
        (acc ++ [(w.agent_config_name, _create_agent_from_workflow w mcp_name)])

/-- `merged_mcp_server._create_unique_agents`: one agent per distinct
`agent_config_name`, first occurrence wins. -/
def _create_unique_agents (workflows : List WorkflowConfig) (mcp_name : String) :
    List (String × AgentConfig) :=
  createUniqueAgentsGo mcp_name workflows []

/-- `merged_mcp_server.phase2_2_create_agent_configs` (together with
`_create_agent_configs_from_workflows` and
`_build_phase2_2_success_response`): load the workflows (outcome `load`),
build the unique agents, save them under `<parent of the workflows
directory>/agents`, and convert every internal exception to a tagged error
dict. Returns the response dict and the agent files written. -/
def phase2_2_create_agent_configs (workflows_directory : String)
    (load : Except PyExc (List WorkflowConfig)) :
    PyDict × List (String × AgentConfig) :=
  match load with
  | Except.error e => (errorDict3 e, [])
  | Except.ok files =>
    let pair := _load_workflow_configs files
    let agents := _create_unique_agents pair.1 pair.2
    let configs_dir := joinPath (dirname workflows_directory) "agents"
    ([("status", PyVal.pstr "success"), ("phase", PyVal.pstr "2.2"),
      ("agents_created", PyVal.pnat agents.length),
      ("configs_directory", PyVal.pstr configs_dir),
      ("project_complete", PyVal.pbool true)],
     savedAgentFiles configs_dir agents)

/-- `merged_mcp_server.phase1_1_install_mcp_tool`: the try block (session
creation, tool listing, config save) is abstracted by `outcome`; every
internal exception becomes the three-key tagged error dict. -/
def phase1_1_install_mcp_tool (name : String)
    (outcome : Except PyExc (List RemoteTool)) : PyDict :=
  match outcome with
  | Except.error e => errorDict3 e
  | Except.ok tools =>
    [("status", PyVal.pstr "success"), ("phase", PyVal.pstr "1.1"),
     ("mcp_name", PyVal.pstr name), ("connection_tested", PyVal.pbool true),
     ("tools_found", PyVal.pnat tools.length)]

/-- `merged_mcp_server.phase1_2_list_mcp_tools_tool`: prefix the listed
tools, write the tools artifact into the timestamped project directory, and
convert every internal exception to the tagged error dict. Returns the
response dict and the artifact written. -/
def phase1_2_list_mcp_tools_tool (name work_dir timestamp : String)
    (outcome : Except PyExc (List RemoteTool)) : PyDict × Option ToolsData :=
  match outcome with
  | Except.error e => (errorDict3 e, none)
  | Except.ok available_tools =>
    let data := Phase1._discover_real_mcp_tools name available_tools
    let project_dir := joinPath work_dir (name ++ "_project_" ++ timestamp)
    let tools_file := joinPath project_dir ("mcp_tools_" ++ name ++ ".json")
    ([("status", PyVal.pstr "success"), ("phase", PyVal.pstr "1.2"),
      ("mcp_name", PyVal.pstr name),
      ("tools_count", PyVal.pnat data.tools.length),
      ("tools", PyVal.plist (data.tools.take 5)),
      ("tools_file_path", PyVal.pstr tools_file)],
     some data)

end Merged

namespace Orch

/-- `SimpleOrchestrator._parse_result`: substring inspection of the agent's
final transcript. -/
def _parse_result (result mcp_name : String) : PyDict :=
  if strContains result "project_complete" || strContains result "configs_directory" then
    [("status", PyVal.pstr "success"), ("result", PyVal.pstr result),
     ("mcp_name", PyVal.pstr mcp_name),
     ("message", PyVal.pstr "Workflow package generated successfully")]
  else
    [("status", PyVal.pstr "partial"), ("result", PyVal.pstr result),
     ("mcp_name", PyVal.pstr mcp_name),
     ("message", PyVal.pstr "Generation may be incomplete")]

/-- `SimpleOrchestrator.generate_workflows`, result handling: the agent loop
is abstracted by `run` (final transcript, or the raised exception); an
exception becomes the tagged error dict with message and traceback. -/
def generate_workflows (mcp_name : String) (run : Except PyExc String) : PyDict :=
  match run with
  | Except.ok result => _parse_result result mcp_name
  | Except.error e =>
    [("status", PyVal.pstr "error"), ("error", PyVal.pstr e.msg),
     ("traceback", PyVal.pstr e.tb)]

end Orch

/-- First-some choice on options (Python dict-style precedence helper). -/
def optOr {α : Type} : Option α → Option α → Option α
  | some a, _ => some a
  | none, b => b

theorem optOr_some {α : Type} (a : α) (x : Option α) : optOr (some a) x = some a := rfl

theorem optOr_none {α : Type} (x : Option α) : optOr none x = x := rfl

theorem string_append_ne_empty (a b : String) (hb : b ≠ "") : a ++ b ≠ "" := by
  intro h
  apply hb
  apply String.ext
  have h2 := congrArg String.data h
  rw [String.data_append] at h2
  have h3 : b.data = [] := (List.append_eq_nil.mp h2).2
  simpa using h3

theorem joinPath_ne_empty (a b : String) (hb : b ≠ "") : joinPath a b ≠ "" := by
  unfold joinPath
  split_ifs with h1 h2 h3
  · exact hb
  · exact hb
  · exact string_append_ne_empty a b hb
  · exact string_append_ne_empty (a ++ "/") b hb

theorem searchMarker_none_of_not_hasSub (m : List Char) :
    ∀ r : List Char, hasSub r m = false → searchMarker m r = none := by
  intro r
  induction r with
  | nil => intro _; rfl
  | cons c t ih =>
    intro h
    have h' : (listStartsWith (c :: t) m || hasSub t m) = false := h
    rw [Bool.or_eq_false_iff] at h'
    show searchMarker m (c :: t) = none
    unfold searchMarker
    rw [h'.1]
    simp only [Bool.false_and, if_false, Bool.false_eq_true]
    exact ih h'.2

theorem searchMarker_of_firstOccTail (m : List Char) :
    ∀ r cap : List Char, firstOccTail m r = some cap → cap ≠ [] →
      searchMarker m r = some cap := by
  intro r
  induction r with
  | nil => intro cap h _; exact absurd h (by simp [firstOccTail])
  | cons c t ih =>
    intro cap h hne
    by_cases hs : listStartsWith (c :: t) m = true
    · have hcap : cap = takeLine ((c :: t).drop m.length) := by
        unfold firstOccTail at h
        rw [if_pos hs] at h
        exact (Option.some.injEq _ _ ▸ h).symm
      have hemp : (takeLine ((c :: t).drop m.length)).isEmpty = false := by
        rw [← hcap]
        cases cap with
        | nil => exact absurd rfl hne
        | cons x xs => rfl
      show searchMarker m (c :: t) = some cap
      unfold searchMarker
      rw [hs, hemp]
      simp only [Bool.and_true, Bool.not_false, Bool.and_self, if_true]
      rw [hcap]
    · have hs' : listStartsWith (c :: t) m = false := by
        cases hq : listStartsWith (c :: t) m
        · rfl
        · exact absurd hq hs
      have h2 : firstOccTail m t = some cap := by
        unfold firstOccTail at h
        rw [if_neg (by rw [hs']; exact Bool.false_ne_true)] at h
        exact h
      show searchMarker m (c :: t) = some cap
      unfold searchMarker
      rw [hs']
      simp only [Bool.false_and, if_false, Bool.false_eq_true]
      exact ih cap h2 hne

theorem hasUU_cons_false {c : Char} {t : List Char} (h : hasUU (c :: t) = false) :
    hasUU t = false := by
  cases t with
  | nil => rfl
  | cons d u =>
    have h' : ((c == '_' && d == '_') || hasUU (d :: u)) = false := h
    exact (Bool.or_eq_false_iff.mp h').2

theorem splitDU_no_sep : ∀ l : List Char, hasUU l = false → splitDU l = [l] := by
  intro l
  induction l with
  | nil => intro _; rfl
  | cons c t ih =>
    intro h
    cases t with
    | nil => rfl
    | cons c2 u =>
      have h' : ((c == '_' && c2 == '_') || hasUU (c2 :: u)) = false := h
      rw [Bool.or_eq_false_iff] at h'
      show splitDU (c :: c2 :: u) = [c :: c2 :: u]
      unfold splitDU
      rw [if_neg (by rw [h'.1]; exact Bool.false_ne_true)]
      rw [ih h'.2]
      rfl

theorem splitDU_cons2 (c c2 : Char) (rest : List Char) :
    splitDU (c :: c2 :: rest) =
      if c == '_' && c2 == '_' then [] :: splitDU rest
      else consHead c (splitDU (c2 :: rest)) := rfl

theorem splitDU_append_sep :
    ∀ xs ys : List Char, hasUU (xs ++ ['_']) = false →
      splitDU (xs ++ '_' :: '_' :: ys) = xs :: splitDU ys := by
  intro xs
  induction xs with
  | nil =>
    intro ys _
    show splitDU ('_' :: '_' :: ys) = [] :: splitDU ys
    rw [splitDU_cons2]
    rw [if_pos (by simp)]
  | cons c xs' ih =>
    intro ys h
    cases xs' with
    | nil =>
      have h' : ((c == '_' && true) || false) = false := by
        have hcc : hasUU ([c] ++ ['_']) = false := h
        simpa [hasUU] using hcc
      have hc : (c == '_') = false := by
        cases hq : (c == '_')
        · rfl
        · rw [hq] at h'; simp at h'
      show splitDU (c :: '_' :: '_' :: ys) = [c] :: splitDU ys
      rw [splitDU_cons2]
      rw [if_neg (by rw [hc]; simp)]
      have hrec : splitDU ('_' :: '_' :: ys) = [] :: splitDU ys := by
        rw [splitDU_cons2]
        rw [if_pos (by simp)]
      rw [hrec]
      rfl
    | cons d xs'' =>
      have h1 : ((c == '_' && d == '_') || hasUU (d :: (xs'' ++ ['_']))) = false := by
        have hcc : hasUU ((c :: d :: xs'') ++ ['_']) = false := h
        simpa [hasUU] using hcc
      rw [Bool.or_eq_false_iff] at h1
      show splitDU (c :: d :: (xs'' ++ '_' :: '_' :: ys)) = (c :: d :: xs'') :: splitDU ys
      rw [splitDU_cons2]
      rw [if_neg (by rw [h1.1]; exact Bool.false_ne_true)]
      have hrec := ih ys (by simpa [hasUU] using h1.2)
      rw [show (d :: xs'') ++ '_' :: '_' :: ys = d :: (xs'' ++ '_' :: '_' :: ys) from rfl] at hrec
      rw [hrec]
      rfl

theorem optOr_none_right {α : Type} (x : Option α) : optOr x none = x := by
  cases x <;> rfl

theorem lookup_append {β : Type} (k : String) :
    ∀ l1 l2 : List (String × β),
      List.lookup k (l1 ++ l2) = optOr (List.lookup k l1) (List.lookup k l2) := by
  intro l1 l2
  induction l1 with
  | nil => simp [List.lookup, optOr]
  | cons p t ih =>
    obtain ⟨a, b⟩ := p
    cases hq : k == a
    · simp only [List.cons_append, List.lookup_cons, hq]
      exact ih
    · simp only [List.cons_append, List.lookup_cons, hq, optOr_some]

theorem lookup_isSome_iff_any {β : Type} (k : String) :
    ∀ l : List (String × β),
      (List.lookup k l).isSome = l.any (fun p => p.1 == k) := by
  intro l
  induction l with
  | nil => rfl
  | cons p t ih =>
    obtain ⟨a, b⟩ := p
    by_cases h : k = a
    · subst h
      simp [List.lookup_cons]
    · have h1 : (k == a) = false := beq_eq_false_iff_ne.mpr h
      have h2 : (a == k) = false := beq_eq_false_iff_ne.mpr (Ne.symm h)
      simp only [List.lookup_cons, h1, List.any_cons, h2, Bool.false_or]
      exact ih

theorem key_mem_iff_lookup {β : Type} (k : String) (l : List (String × β)) :
    k ∈ l.map Prod.fst ↔ (List.lookup k l).isSome = true := by
  rw [lookup_isSome_iff_any, List.any_eq_true]
  constructor
  · intro hm
    rw [List.mem_map] at hm
    obtain ⟨p, hp, he⟩ := hm
    exact ⟨p, hp, beq_iff_eq.mpr he⟩
  · intro hm
    obtain ⟨p, hp, he⟩ := hm
    rw [List.mem_map]
    exact ⟨p, hp, beq_iff_eq.mp he⟩

theorem nodup_append_singleton {α : Type} (l : List α) (a : α)
    (hl : l.Nodup) (ha : a ∉ l) : (l ++ [a]).Nodup := by
  rw [List.nodup_append]
  refine ⟨hl, List.nodup_singleton a, ?_⟩
  rw [List.disjoint_singleton]
  exact ha

theorem createUniqueAgentsGo_nil (nm : String) (acc : List (String × AgentConfig)) :
    Merged.createUniqueAgentsGo nm [] acc = acc := rfl

theorem createUniqueAgentsGo_cons (nm : String) (w : WorkflowConfig)
    (rest : List WorkflowConfig) (acc : List (String × AgentConfig)) :
    Merged.createUniqueAgentsGo nm (w :: rest) acc =
      if acc.any (fun p => p.1 == w.agent_config_name) then
        Merged.createUniqueAgentsGo nm rest acc
      else
        Merged.createUniqueAgentsGo nm rest
          (acc ++ [(w.agent_config_name, Merged._create_agent_from_workflow w nm)]) := rfl

theorem createUniqueAgentsGo_lookup (nm n : String) :
    ∀ (ws : List WorkflowConfig) (acc : List (String × AgentConfig)),
      List.lookup n (Merged.createUniqueAgentsGo nm ws acc) =
        optOr (List.lookup n acc)
          ((ws.find? (fun w => w.agent_config_name == n)).map
            (fun w => Merged._create_agent_from_workflow w nm)) := by
  intro ws
  induction ws with
  | nil =>
    intro acc
    rw [createUniqueAgentsGo_nil]
    simp only [List.find?_nil, Option.map_none']
    rw [optOr_none_right]
  | cons w rest ih =>
    intro acc
    rw [createUniqueAgentsGo_cons]
    by_cases hk : acc.any (fun p => p.1 == w.agent_config_name) = true
    · rw [if_pos hk, ih acc]
      by_cases hn : w.agent_config_name = n
      · have hsome : (List.lookup n acc).isSome = true := by
          rw [lookup_isSome_iff_any, ← hn]
          exact hk
        obtain ⟨v, hv⟩ := Option.isSome_iff_exists.mp hsome
        rw [hv, optOr_some, optOr_some]
      · have hf : (w.agent_config_name == n) = false := beq_eq_false_iff_ne.mpr hn
        rw [List.find?_cons, hf]
    · rw [if_neg hk, ih _, lookup_append]
      have hkf : acc.any (fun p => p.1 == w.agent_config_name) = false := by
        cases hq : acc.any (fun p => p.1 == w.agent_config_name)
        · rfl
        · exact absurd hq hk
      by_cases hn : w.agent_config_name = n
      · have hnone : List.lookup n acc = none := by
          have h1 : (List.lookup n acc).isSome = false := by
            rw [lookup_isSome_iff_any, ← hn]
            exact hkf
          cases hq : List.lookup n acc
          · rfl
          · rw [hq] at h1; simp at h1
        have hl1 : List.lookup n
            [(w.agent_config_name, Merged._create_agent_from_workflow w nm)] =
            some (Merged._create_agent_from_workflow w nm) := by
          have : (n == w.agent_config_name) = true := beq_iff_eq.mpr hn.symm
          simp [List.lookup_cons, this]
        have hfw : (w.agent_config_name == n) = true := beq_iff_eq.mpr hn
        rw [hnone, optOr_none, optOr_none, hl1, optOr_some, List.find?_cons, hfw]
        rfl
      · have hl1 : List.lookup n
            [(w.agent_config_name, Merged._create_agent_from_workflow w nm)] = none := by
          have : (n == w.agent_config_name) = false :=
            beq_eq_false_iff_ne.mpr (Ne.symm hn)
          simp [List.lookup_cons, this]
        have hf : (w.agent_config_name == n) = false := beq_eq_false_iff_ne.mpr hn
        rw [hl1, optOr_none_right, List.find?_cons, hf]

theorem createUniqueAgentsGo_keys_nodup (nm : String) :
    ∀ (ws : List WorkflowConfig) (acc : List (String × AgentConfig)),
      (acc.map Prod.fst).Nodup →
      ((Merged.createUniqueAgentsGo nm ws acc).map Prod.fst).Nodup := by
  intro ws
  induction ws with
  | nil =>
    intro acc h
    rw [createUniqueAgentsGo_nil]
    exact h
  | cons w rest ih =>
    intro acc hacc
    rw [createUniqueAgentsGo_cons]
    by_cases hk : acc.any (fun p => p.1 == w.agent_config_name) = true
    · rw [if_pos hk]
      exact ih acc hacc
    · rw [if_neg hk]
      apply ih
      rw [List.map_append]
      simp only [List.map_cons, List.map_nil]
      apply nodup_append_singleton _ _ hacc
      intro hmem
      have h1 : (List.lookup w.agent_config_name acc).isSome = true :=
        (key_mem_iff_lookup _ acc).mp hmem
      rw [lookup_isSome_iff_any] at h1
      exact hk h1

theorem parse_result_pos (t nm : String)
    (h : (strContains t "project_complete" || strContains t "configs_directory") = true) :
    Orch._parse_result t nm =
      [("status", PyVal.pstr "success"), ("result", PyVal.pstr t),
       ("mcp_name", PyVal.pstr nm),
       ("message", PyVal.pstr "Workflow package generated successfully")] := by
  unfold Orch._parse_result
  rw [if_pos h]

theorem parse_result_neg (t nm : String)
    (h : (strContains t "project_complete" || strContains t "configs_directory") = false) :
    Orch._parse_result t nm =
      [("status", PyVal.pstr "partial"), ("result", PyVal.pstr t),
       ("mcp_name", PyVal.pstr nm),
       ("message", PyVal.pstr "Generation may be incomplete")] := by
  unfold Orch._parse_result
  rw [if_neg (by rw [h]; exact Bool.false_ne_true)]

/-- Claim C2: the orchestrated generate call classifies the agent's final
transcript as status success exactly when it contains "project_complete" or
"configs_directory", as partial otherwise, and an exception raised by the
agent loop yields status error carrying the exception message and the full
traceback. -/
theorem mcpsq_C2_outcome_classification (t mcp_name : String) (e : PyExc) :
    (List.lookup "status" (Orch.generate_workflows mcp_name (Except.ok t)) =
        some (PyVal.pstr "success") ↔
      (strContains t "project_complete" = true ∨
        strContains t "configs_directory" = true)) ∧
    (List.lookup "status" (Orch.generate_workflows mcp_name (Except.ok t)) =
        some (PyVal.pstr "partial") ↔
      ¬(strContains t "project_complete" = true ∨
        strContains t "configs_directory" = true)) ∧
    Orch.generate_workflows mcp_name (Except.error e) =
      [("status", PyVal.pstr "error"), ("error", PyVal.pstr e.msg),
       ("traceback", PyVal.pstr e.tb)] := by
  cases h : (strContains t "project_complete" || strContains t "configs_directory") with
  | false =>
    have hl : List.lookup "status" (Orch.generate_workflows mcp_name (Except.ok t)) =
        some (PyVal.pstr "partial") := by
      show List.lookup "status" (Orch._parse_result t mcp_name) = _
      rw [parse_result_neg t mcp_name h]
      rfl
    have hno : ¬(strContains t "project_complete" = true ∨
        strContains t "configs_directory" = true) := by
      rw [← Bool.or_eq_true]
      rw [h]
      exact Bool.false_ne_true
    refine ⟨⟨?_, ?_⟩, ⟨?_, ?_⟩, rfl⟩
    · intro hc
      rw [hl] at hc
      exact absurd hc (by decide)
    · intro hc
      exact absurd hc hno
    · intro _
      exact hno
    · intro _
      exact hl
  | true =>
    have hl : List.lookup "status" (Orch.generate_workflows mcp_name (Except.ok t)) =
        some (PyVal.pstr "success") := by
      show List.lookup "status" (Orch._parse_result t mcp_name) = _
      rw [parse_result_pos t mcp_name h]
      rfl
    have hyes : strContains t "project_complete" = true ∨
        strContains t "configs_directory" = true := by
      rw [← Bool.or_eq_true]
      exact h
    refine ⟨⟨?_, ?_⟩, ⟨?_, ?_⟩, rfl⟩
    · intro _
      exact hyes
    · intro _
      exact hl
    · intro hc
      rw [hl] at hc
      exact absurd hc (by decide)
    · intro hc
      exact absurd hyes hc

/-- Claim C10: a workflows directory with no JSON files yields a success
result with zero agents created, project_complete true, the fallback
service name "unknown", and configs_directory equal to the parent of the
workflows directory joined with "agents". -/
theorem mcpsq_C10_empty_workflows_dir (wd : String) :
    (Merged._load_workflow_configs []).2 = "unknown" ∧
    (Merged.phase2_2_create_agent_configs wd (Except.ok [])).1 =
      [("status", PyVal.pstr "success"), ("phase", PyVal.pstr "2.2"),
       ("agents_created", PyVal.pnat 0),
       ("configs_directory", PyVal.pstr (joinPath (dirname wd) "agents")),
       ("project_complete", PyVal.pbool true)] ∧
    (Merged.phase2_2_create_agent_configs wd (Except.ok [])).2 = [] := by
  exact ⟨rfl, rfl, rfl⟩

/-- Claim C8: a descriptor missing any of name, command, or args makes the
install/validate operation return a status error result immediately, with
zero session-creation calls. -/
theorem mcpsq_C8_invalid_config_no_session (config : PyDict)
    (conn : Except PyExc Nat) (save : Except PyExc Unit)
    (h : List.lookup "name" config = none ∨ List.lookup "command" config = none ∨
      List.lookup "args" config = none) :
    List.lookup "status" (Phase1.phase1_1_install_mcp_tool config conn save).1 =
      some (PyVal.pstr "error") ∧
    (Phase1.phase1_1_install_mcp_tool config conn save).2 = 0 := by
  have hv : Phase1._validate_mcp_config config = false := by
    unfold Phase1._validate_mcp_config
    cases hall : (["name", "command", "args"].all
        (fun field => (List.lookup field config).isSome))
    · rfl
    · exfalso
      rw [List.all_eq_true] at hall
      rcases h with hc | hc | hc
      · have h1 := hall "name" (by simp)
        rw [hc] at h1
        exact absurd h1 (by decide)
      · have h1 := hall "command" (by simp)
        rw [hc] at h1
        exact absurd h1 (by decide)
      · have h1 := hall "args" (by simp)
        rw [hc] at h1
        exact absurd h1 (by decide)
  have hvt : Phase1._validate_config_and_test_connection config conn =
      ((false, "Invalid MCP configuration format"), 0) := by
    unfold Phase1._validate_config_and_test_connection
    rw [hv]
    rfl
  have hmain : Phase1.phase1_1_install_mcp_tool config conn save =
      (buildErrorResponse "Invalid MCP configuration format" none, 0) := by
    unfold Phase1.phase1_1_install_mcp_tool
    rw [hvt]
    rfl
  rw [hmain]
  exact ⟨rfl, rfl⟩

/-- Witness for C8 at a concrete descriptor missing the name field. -/
theorem mcpsq_C8_witness :
    List.lookup "status" (Phase1.phase1_1_install_mcp_tool
        [("command", PyVal.pstr "python"), ("args", PyVal.plist ["demo_server.py"])]
        (Except.ok 3) (Except.ok ())).1 = some (PyVal.pstr "error") ∧
    (Phase1.phase1_1_install_mcp_tool
        [("command", PyVal.pstr "python"), ("args", PyVal.plist ["demo_server.py"])]
        (Except.ok 3) (Except.ok ())).2 = 0 :=
  mcpsq_C8_invalid_config_no_session
    [("command", PyVal.pstr "python"), ("args", PyVal.plist ["demo_server.py"])]
    (Except.ok 3) (Except.ok ()) (Or.inl (by decide))

/-- Claim C1 (amended): extraction returns the stripped rest-of-line at the
leftmost occurrence of the marker that is followed by at least one
non-newline character (in particular at the first occurrence whenever its
rest-of-line is non-empty); when no such occurrence exists (in particular
when the marker is absent) it returns the deterministic fallback path,
which is non-empty; extraction is total and performs no existence check.
The same holds for agent-config extraction with its marker and fallback. -/
theorem mcpsq_C1_extraction_amended (r tfp nm resp designs : String) :
    (∀ cap : List Char, searchMarker Phase2.wfMarker r.data = some cap →
      Phase2._extract_file_path_from_response r tfp nm = String.mk (pyStrip cap)) ∧
    (∀ cap : List Char, firstOccTail Phase2.wfMarker r.data = some cap → cap ≠ [] →
      Phase2._extract_file_path_from_response r tfp nm = String.mk (pyStrip cap)) ∧
    (hasSub r.data Phase2.wfMarker = false →
      Phase2._extract_file_path_from_response r tfp nm =
        joinPath (dirname tfp) ("workflow_designs_" ++ nm ++ ".json")) ∧
    (searchMarker Phase2.wfMarker r.data = none →
      Phase2._extract_file_path_from_response r tfp nm =
        joinPath (dirname tfp) ("workflow_designs_" ++ nm ++ ".json") ∧
      Phase2._extract_file_path_from_response r tfp nm ≠ "") ∧
    (∀ cap : List Char, searchMarker Phase2.cfgMarker resp.data = some cap →
      Phase2._extract_configs_dir_from_response resp designs = String.mk (pyStrip cap)) ∧
    (∀ cap : List Char, firstOccTail Phase2.cfgMarker resp.data = some cap → cap ≠ [] →
      Phase2._extract_configs_dir_from_response resp designs = String.mk (pyStrip cap)) ∧
    (searchMarker Phase2.cfgMarker resp.data = none →
      Phase2._extract_configs_dir_from_response resp designs =
        joinPath (dirname designs) "agent_configs" ∧
      Phase2._extract_configs_dir_from_response resp designs ≠ "") := by
  refine ⟨?_, ?_, ?_, ?_, ?_, ?_, ?_⟩
  · intro cap h
    unfold Phase2._extract_file_path_from_response
    rw [h]
  · intro cap h hne
    have hs := searchMarker_of_firstOccTail Phase2.wfMarker r.data cap h hne
    unfold Phase2._extract_file_path_from_response
    rw [hs]
  · intro h
    have hs := searchMarker_none_of_not_hasSub Phase2.wfMarker r.data h
    unfold Phase2._extract_file_path_from_response
    rw [hs]
  · intro h
    constructor
    · unfold Phase2._extract_file_path_from_response
      rw [h]
    · unfold Phase2._extract_file_path_from_response
      rw [h]
      exact joinPath_ne_empty _ _
        (string_append_ne_empty ("workflow_designs_" ++ nm) ".json" (by decide))
  · intro cap h
    unfold Phase2._extract_configs_dir_from_response
    rw [h]
  · intro cap h hne
    have hs := searchMarker_of_firstOccTail Phase2.cfgMarker resp.data cap h hne
    unfold Phase2._extract_configs_dir_from_response
    rw [hs]
  · intro h
    constructor
    · unfold Phase2._extract_configs_dir_from_response
      rw [h]
    · unfold Phase2._extract_configs_dir_from_response
      rw [h]
      exact joinPath_ne_empty _ _ (by decide)

/-- Counterexample to C1 as stated: in the reply "Workflows written to \nX"
the marker does occur, and the text following its first occurrence up to
end-of-line is empty, yet extraction returns the non-empty fallback path
rather than that stripped text. -/
theorem mcpsq_C1_counterexample :
    hasSub ("Workflows written to \nX").data Phase2.wfMarker = true ∧
    firstOccTail Phase2.wfMarker ("Workflows written to \nX").data = some [] ∧
    String.mk (pyStrip []) = "" ∧
    Phase2._extract_file_path_from_response "Workflows written to \nX"
      "/w/p/mcp_tools_demo.json" "demo" = "/w/p/workflow_designs_demo.json" ∧
    ("/w/p/workflow_designs_demo.json" : String) ≠ "" := by
  refine ⟨?_, ?_, ?_, ?_, ?_⟩ <;> decide

/-- Witness for the amended C1 at concrete transcripts with and without the
marker phrase. -/
theorem mcpsq_C1_witness :
    Phase2._extract_file_path_from_response
      "Done. Workflows written to /tmp/proj/wf.json \nbye" "/w/p/t.json" "demo" =
      "/tmp/proj/wf.json" ∧
    Phase2._extract_configs_dir_from_response "no marker here" "/w/p/designs.json" =
      "/w/p/agent_configs" ∧
    Phase2._extract_configs_dir_from_response "no marker here" "/w/p/designs.json" ≠ "" := by
  refine ⟨?_, ?_, ?_⟩
  · exact ((mcpsq_C1_extraction_amended
      "Done. Workflows written to /tmp/proj/wf.json \nbye" "/w/p/t.json" "demo"
      "no marker here" "/w/p/designs.json").2.1 ("/tmp/proj/wf.json ".data)
      (by decide) (by decide)).trans (by decide)
  · exact (((mcpsq_C1_extraction_amended
      "Done. Workflows written to /tmp/proj/wf.json \nbye" "/w/p/t.json" "demo"
      "no marker here" "/w/p/designs.json").2.2.2.2.2.2) (by decide)).1.trans (by decide)
  · exact (((mcpsq_C1_extraction_amended
      "Done. Workflows written to /tmp/proj/wf.json \nbye" "/w/p/t.json" "demo"
      "no marker here" "/w/p/designs.json").2.2.2.2.2.2) (by decide)).2

/-- Claim C5 (amended): within one discovery call for service name s the
namespacing transform is injective in the raw tool name; and splitting the
prefixed name on "__" recovers exactly ["mcp", s, raw] whenever raw
contains no "__" and s neither contains "__" nor ends with "_" (the
condition on s is forced by Python's leftmost non-overlapping split). -/
theorem mcpsq_C5_namespacing_amended (s r1 r2 raw : String) :
    (Phase1.prefixedToolName s r1 = Phase1.prefixedToolName s r2 → r1 = r2) ∧
    (hasUU (s.data ++ ['_']) = false → hasUU raw.data = false →
      pySplitUU (Phase1.prefixedToolName s raw) = ["mcp", s, raw]) := by
  constructor
  · intro h
    apply String.ext
    have h2 := congrArg String.data h
    simp only [Phase1.prefixedToolName, String.data_append, List.append_assoc] at h2
    exact List.append_cancel_left (List.append_cancel_left (List.append_cancel_left h2))
  · intro hs hr
    have hdata : (Phase1.prefixedToolName s raw).data
        = ['m', 'c', 'p'] ++ '_' :: '_' :: (s.data ++ '_' :: '_' :: raw.data) := by
      simp only [Phase1.prefixedToolName, String.data_append, List.append_assoc]
      rfl
    unfold pySplitUU
    rw [hdata]
    rw [splitDU_append_sep ['m', 'c', 'p'] _ (by decide)]
    rw [splitDU_append_sep s.data raw.data hs]
    rw [splitDU_no_sep raw.data hr]
    rfl

/-- Counterexample to C5 as stated: for service name "a_" and raw name "t"
(which contains no "__"), splitting the prefixed name "mcp__a___t" yields
["mcp", "a", "_t"], not ["mcp", "a_", "t"]. -/
theorem mcpsq_C5_counterexample :
    hasUU ("t" : String).data = false ∧
    pySplitUU (Phase1.prefixedToolName "a_" "t") = ["mcp", "a", "_t"] ∧
    (["mcp", "a", "_t"] : List String) ≠ ["mcp", "a_", "t"] := by
  refine ⟨?_, ?_, ?_⟩ <;> decide

/-- Witness for the amended C5 at the spec's demo service and tool names. -/
theorem mcpsq_C5_witness :
    ("add_item" : String) = "add_item" ∧
    pySplitUU (Phase1.prefixedToolName "demo" "add_item") = ["mcp", "demo", "add_item"] :=
  ⟨(mcpsq_C5_namespacing_amended "demo" "add_item" "add_item" "add_item").1 rfl,
   (mcpsq_C5_namespacing_amended "demo" "add_item" "add_item" "add_item").2
     (by decide) (by decide)⟩

/-- Claim C3 (amended): every phase-level operation converts an internal
exception into a tagged error dict instead of raising. The four merged
server operations return exactly `{status: error, error, traceback}`; the
phase-tools install operation also does so for exceptions outside the
connection test (with a "Phase 1.1 failed: " prefix), but converts a
connection-test exception into `{status: error, error}` with the traceback
only logged, not returned. -/
theorem mcpsq_C3_error_tagging_amended (e : PyExc)
    (nm tfp wd work_dir ts : String) (config : PyDict)
    (hv : Phase1._validate_mcp_config config = true) :
    Merged.phase1_1_install_mcp_tool nm (Except.error e) = errorDict3 e ∧
    (Merged.phase1_2_list_mcp_tools_tool nm work_dir ts (Except.error e)).1 = errorDict3 e ∧
    (Merged.phase2_1_create_workflow_configs tfp (Except.error e)).1 = errorDict3 e ∧
    (Merged.phase2_2_create_agent_configs wd (Except.error e)).1 = errorDict3 e ∧
    (Phase1.phase1_1_install_mcp_tool config (Except.error e) (Except.ok ())).1 =
      buildErrorResponse ("Connection failed: " ++ e.msg) none ∧
    List.lookup "traceback"
      (Phase1.phase1_1_install_mcp_tool config (Except.error e) (Except.ok ())).1 = none ∧
    (Phase1.phase1_1_install_mcp_tool config (Except.ok 0) (Except.error e)).1 =
      buildErrorResponse ("Phase 1.1 failed: " ++ e.msg) (some e.tb) := by
  have hvt : Phase1._validate_config_and_test_connection config (Except.error e) =
      ((false, "Connection failed: " ++ e.msg), 1) := by
    unfold Phase1._validate_config_and_test_connection
    rw [hv]
    rfl
  have hvo : Phase1._validate_config_and_test_connection config (Except.ok 0) =
      ((true, "connection_tested: True, connection_resources: tool"), 1) := by
    unfold Phase1._validate_config_and_test_connection
    rw [hv]
    rfl
  have hconn : (Phase1.phase1_1_install_mcp_tool config (Except.error e) (Except.ok ())).1 =
      buildErrorResponse ("Connection failed: " ++ e.msg) none := by
    unfold Phase1.phase1_1_install_mcp_tool
    rw [hvt]
    rfl
  have hsave : (Phase1.phase1_1_install_mcp_tool config (Except.ok 0) (Except.error e)).1 =
      buildErrorResponse ("Phase 1.1 failed: " ++ e.msg) (some e.tb) := by
    unfold Phase1.phase1_1_install_mcp_tool
    rw [hvo]
    rfl
  refine ⟨rfl, rfl, rfl, rfl, hconn, ?_, hsave⟩
  rw [hconn]
  rfl

/-- Counterexample to C3 as stated: a connection exception inside the
phase-tools install operation yields a result with only status and error
keys; the required traceback key is absent. -/
theorem mcpsq_C3_counterexample :
    (Phase1.phase1_1_install_mcp_tool
        [("name", PyVal.pstr "demo"), ("command", PyVal.pstr "python"),
         ("args", PyVal.plist ["demo_server.py"])]
        (Except.error { msg := "boom", tb := "Traceback: boom" }) (Except.ok ())).1 =
      [("status", PyVal.pstr "error"), ("error", PyVal.pstr "Connection failed: boom")] ∧
    List.lookup "traceback"
      (Phase1.phase1_1_install_mcp_tool
        [("name", PyVal.pstr "demo"), ("command", PyVal.pstr "python"),
         ("args", PyVal.plist ["demo_server.py"])]
        (Except.error { msg := "boom", tb := "Traceback: boom" }) (Except.ok ())).1 = none := by
  exact ⟨by decide, by decide⟩

/-- Witness for the amended C3 at a concrete valid descriptor. -/
theorem mcpsq_C3_witness :
    Merged.phase1_1_install_mcp_tool "demo"
        (Except.error { msg := "boom", tb := "tb" }) =
      errorDict3 { msg := "boom", tb := "tb" } ∧
    (Phase1.phase1_1_install_mcp_tool
        [("name", PyVal.pstr "demo"), ("command", PyVal.pstr "python"),
         ("args", PyVal.plist [])]
        (Except.ok 0) (Except.error { msg := "boom", tb := "tb" })).1 =
      buildErrorResponse ("Phase 1.1 failed: " ++ "boom") (some "tb") :=
  ⟨(mcpsq_C3_error_tagging_amended { msg := "boom", tb := "tb" } "demo" "" "" "" ""
      [("name", PyVal.pstr "demo"), ("command", PyVal.pstr "python"),
       ("args", PyVal.plist [])] (by decide)).1,
   (mcpsq_C3_error_tagging_amended { msg := "boom", tb := "tb" } "demo" "" "" "" ""
      [("name", PyVal.pstr "demo"), ("command", PyVal.pstr "python"),
       ("args", PyVal.plist [])] (by decide)).2.2.2.2.2.2⟩

/-- Claim C7: rule-based agent-config synthesis produces exactly one agent
entry (and one saved file) per distinct agent_config_name referenced by the
workflows: the key list is duplicate-free, a name is a key exactly when
some workflow references it, the stored config is derived from the first
workflow carrying that name, and one file is written per entry. -/
theorem mcpsq_C7_agent_dedup (ws : List WorkflowConfig) (nm n dir : String) :
    ((Merged._create_unique_agents ws nm).map Prod.fst).Nodup ∧
    List.lookup n (Merged._create_unique_agents ws nm) =
      (ws.find? (fun w => w.agent_config_name == n)).map
        (fun w => Merged._create_agent_from_workflow w nm) ∧
    (n ∈ (Merged._create_unique_agents ws nm).map Prod.fst ↔
      n ∈ ws.map (fun w => w.agent_config_name)) ∧
    Merged.savedAgentFiles dir (Merged._create_unique_agents ws nm) =
      (Merged._create_unique_agents ws nm).map
        (fun p => (joinPath dir (p.1 ++ ".json"), p.2)) := by
  have hlk : List.lookup n (Merged._create_unique_agents ws nm) =
      (ws.find? (fun w => w.agent_config_name == n)).map
        (fun w => Merged._create_agent_from_workflow w nm) := by
    unfold Merged._create_unique_agents
    rw [createUniqueAgentsGo_lookup]
    rw [show List.lookup n ([] : List (String × AgentConfig)) = none from rfl, optOr_none]
  refine ⟨?_, hlk, ?_, rfl⟩
  · exact createUniqueAgentsGo_keys_nodup nm ws [] (by simp)
  · rw [key_mem_iff_lookup, hlk]
    cases hf : List.find? (fun w => w.agent_config_name == n) ws with
    | none =>
      simp only [Option.map_none', Option.isSome_none]
      rw [List.find?_eq_none] at hf
      constructor
      · intro hc
        exact absurd hc (by decide)
      · intro hm
        obtain ⟨w, hw, he⟩ := List.mem_map.mp hm
        exact absurd (beq_iff_eq.mpr he) (hf w hw)
    | some w =>
      simp only [Option.map_some', Option.isSome_some]
      have hw := List.mem_of_find?_eq_some hf
      have hpw := List.find?_some hf
      constructor
      · intro _
        exact List.mem_map.mpr ⟨w, hw, beq_iff_eq.mp hpw⟩
      · intro _
        trivial

theorem mem_extract_iff (allowed : List String) (x : String) :
    x ∈ SchemaTools.extract_mcp_names_from_tools allowed ↔
      ∃ t ∈ allowed, listStartsWith t.data ("mcp__".data) = true ∧
        3 ≤ (pySplitUU t).length ∧ (pySplitUU t).get? 1 = some x := by
  unfold SchemaTools.extract_mcp_names_from_tools
  rw [List.mem_dedup, List.mem_filterMap]
  constructor
  · rintro ⟨t, ht, hf⟩
    by_cases hc : (listStartsWith t.data ("mcp__".data) &&
        decide (3 ≤ (pySplitUU t).length)) = true
    · rw [if_pos hc] at hf
      rw [Bool.and_eq_true] at hc
      exact ⟨t, ht, hc.1, of_decide_eq_true hc.2, hf⟩
    · rw [if_neg hc] at hf
      exact absurd hf (by simp)
  · rintro ⟨t, ht, h1, h2, h3⟩
    refine ⟨t, ht, ?_⟩
    rw [if_pos (by rw [h1, decide_eq_true h2]; rfl)]
    exact h3

/-- Claim C6 (amended): an AgentConfig built by the schema-tools constructor
carries mcp_names equal to the set of distinct second "__"-segments of its
mcp__-prefixed allowed tools; an AgentConfig built by the merged rule-based
path instead carries mcp_names = [derived service name], and that list
agrees (as a set) with the derived set exactly when at least one allowed
tool is mcp__-prefixed with at least three "__"-segments whose second
segment is that service name, and every such mcp__-prefixed allowed tool
has that service name as its second segment. -/
theorem mcpsq_C6_mcp_names_amended (allowed : List String)
    (an sp mdl prov nm x : String) (ms : Nat) (w : WorkflowConfig) :
    (SchemaTools.create_agent_config an sp allowed mdl prov ms).mcp_names =
      SchemaTools.extract_mcp_names_from_tools allowed ∧
    (x ∈ SchemaTools.extract_mcp_names_from_tools allowed ↔
      ∃ t ∈ allowed, listStartsWith t.data ("mcp__".data) = true ∧
        3 ≤ (pySplitUU t).length ∧ (pySplitUU t).get? 1 = some x) ∧
    ((∀ y : String, y ∈ (Merged._create_agent_from_workflow w nm).mcp_names ↔
        y ∈ SchemaTools.extract_mcp_names_from_tools
          (Merged._create_agent_from_workflow w nm).allowed_tools) ↔
      ((∃ t ∈ w.tool_sequence, listStartsWith t.data ("mcp__".data) = true ∧
          3 ≤ (pySplitUU t).length ∧ (pySplitUU t).get? 1 = some nm) ∧
        (∀ t ∈ w.tool_sequence, listStartsWith t.data ("mcp__".data) = true →
          3 ≤ (pySplitUU t).length → (pySplitUU t).get? 1 = some nm))) := by
  refine ⟨rfl, mem_extract_iff allowed x, ?_⟩
  constructor
  · intro hiff
    have h1 : nm ∈ SchemaTools.extract_mcp_names_from_tools
        (Merged._create_agent_from_workflow w nm).allowed_tools :=
      (hiff nm).mp (List.mem_cons_self nm [])
    have h1' := (mem_extract_iff _ nm).mp h1
    refine ⟨h1', ?_⟩
    intro t ht hq hl
    have hx : ∃ v, (pySplitUU t).get? 1 = some v := by
      cases hg : (pySplitUU t).get? 1 with
      | none =>
        exfalso
        have hlen := List.get?_eq_none.mp hg
        omega
      | some v => exact ⟨v, rfl⟩
    obtain ⟨v, hv⟩ := hx
    have hvmem : v ∈ SchemaTools.extract_mcp_names_from_tools
        (Merged._create_agent_from_workflow w nm).allowed_tools :=
      (mem_extract_iff _ v).mpr ⟨t, ht, hq, hl, hv⟩
    have hvn : v ∈ (Merged._create_agent_from_workflow w nm).mcp_names :=
      (hiff v).mpr hvmem
    have hvn2 : v ∈ [nm] := hvn
    have hv_nm : v = nm := by simpa using hvn2
    rw [hv, hv_nm]
  · rintro ⟨⟨t0, ht0, hq0, hl0, hs0⟩, hall⟩
    intro y
    constructor
    · intro hy
      have hy2 : y ∈ [nm] := hy
      have hy' : y = nm := by simpa using hy2
      refine (mem_extract_iff _ y).mpr ⟨t0, ht0, hq0, hl0, ?_⟩
      rw [hs0, hy']
    · intro hy
      obtain ⟨t, ht, hq, hl, hs⟩ := (mem_extract_iff _ y).mp hy
      have hn := hall t ht hq hl
      rw [hn] at hs
      have hyn : nm = y := by
        injection hs
      rw [← hyn]
      exact List.mem_cons_self nm []

/-- Counterexample to C6 as stated: running the rule-based pipeline on a
service named "demo" with an empty discovered-tool list produces an
AgentConfig whose mcp_names is ["demo"] while the set of service-name
components derived from its (empty) allowed_tools is empty. -/
theorem mcpsq_C6_counterexample :
    Option.map (fun a => (a.mcp_names, a.allowed_tools,
        SchemaTools.extract_mcp_names_from_tools a.allowed_tools))
      (List.lookup "demo_general_agent"
        (Merged._create_unique_agents (Merged.phase2_1_workflows "demo" [])
          (Merged._load_workflow_configs (Merged.phase2_1_workflows "demo" [])).2))
      = some (["demo"], [], []) ∧
    ("demo" : String) ∈ (["demo"] : List String) ∧
    ("demo" : String) ∉ ([] : List String) := by
  refine ⟨?_, ?_, ?_⟩ <;> decide

/-- Witness for the amended C6 at a concrete workflow whose prefixed tool
carries the derived service name (an unprefixed helper tool is present and
contributes nothing), instantiated at the service name itself. -/
theorem mcpsq_C6_witness :
    ("demo" : String) ∈ (Merged._create_agent_from_workflow
        { workflow_name := "demo_general_workflow", description := "",
          agent_config_name := "demo_general_agent", input_prompt := "",
          templated_args := [],
          tool_sequence := ["mcp__demo__add_item", "helper"],
          domain := none } "demo").mcp_names ↔
      ("demo" : String) ∈ SchemaTools.extract_mcp_names_from_tools
        (Merged._create_agent_from_workflow
          { workflow_name := "demo_general_workflow", description := "",
            agent_config_name := "demo_general_agent", input_prompt := "",
            templated_args := [],
            tool_sequence := ["mcp__demo__add_item", "helper"],
            domain := none } "demo").allowed_tools :=
  ((mcpsq_C6_mcp_names_amended [] "" "" "" "" "demo" ""
    0 { workflow_name := "demo_general_workflow", description := "",
        agent_config_name := "demo_general_agent", input_prompt := "",
        templated_args := [],
        tool_sequence := ["mcp__demo__add_item", "helper"],
        domain := none }).2.2.mpr (by decide)) "demo"

theorem createUniqueAgentsGo_key_eq_name (nm : String) :
    ∀ (ws : List WorkflowConfig) (acc : List (String × AgentConfig)),
      (∀ p ∈ acc, p.1 = p.2.agent_name) →
      ∀ p ∈ Merged.createUniqueAgentsGo nm ws acc, p.1 = p.2.agent_name := by
  intro ws
  induction ws with
  | nil =>
    intro acc h
    rw [createUniqueAgentsGo_nil]
    exact h
  | cons w rest ih =>
    intro acc hacc
    rw [createUniqueAgentsGo_cons]
    by_cases hk : acc.any (fun p => p.1 == w.agent_config_name) = true
    · rw [if_pos hk]
      exact ih acc hacc
    · rw [if_neg hk]
      apply ih
      intro p hp
      rcases List.mem_append.mp hp with h1 | h2
      · exact hacc p h1
      · have hpe : p = (w.agent_config_name, Merged._create_agent_from_workflow w nm) := by
          simpa using h2
        rw [hpe]
        rfl

/-- Claim C9 (amended): the rule-based synthesis writes each AgentConfig
file at `<parent of workflows_directory>/agents/<agent_name>.json` (the
`agents` convention, not `agent_configs`); the delegated path's fallback
reports `<project_dir>/agent_configs` instead, so the two code paths use
different directory conventions. -/
theorem mcpsq_C9_agent_file_layout_amended (wd designs resp : String)
    (files : List WorkflowConfig) :
    (Merged.phase2_2_create_agent_configs wd (Except.ok files)).2 =
      (Merged._create_unique_agents files (Merged._load_workflow_configs files).2).map
        (fun p => (joinPath (joinPath (dirname wd) "agents") (p.1 ++ ".json"), p.2)) ∧
    (∀ pf ∈ (Merged.phase2_2_create_agent_configs wd (Except.ok files)).2,
      pf.1 = joinPath (joinPath (dirname wd) "agents") (pf.2.agent_name ++ ".json")) ∧
    (searchMarker Phase2.cfgMarker resp.data = none →
      Phase2._extract_configs_dir_from_response resp designs =
        joinPath (dirname designs) "agent_configs") := by
  refine ⟨rfl, ?_, ?_⟩
  · intro pf hpf
    have hmem := hpf
    rw [show (Merged.phase2_2_create_agent_configs wd (Except.ok files)).2 =
      (Merged._create_unique_agents files (Merged._load_workflow_configs files).2).map
        (fun p => (joinPath (joinPath (dirname wd) "agents") (p.1 ++ ".json"), p.2))
      from rfl] at hmem
    obtain ⟨p, hp, he⟩ := List.mem_map.mp hmem
    have hkey : p.1 = p.2.agent_name :=
      createUniqueAgentsGo_key_eq_name _ files []
        (by intro q hq; exact absurd hq (List.not_mem_nil q)) p hp
    rw [← he]
    show joinPath (joinPath (dirname wd) "agents") (p.1 ++ ".json") =
      joinPath (joinPath (dirname wd) "agents") (p.2.agent_name ++ ".json")
    rw [hkey]
  · intro h
    unfold Phase2._extract_configs_dir_from_response
    rw [h]

/-- Counterexample to C9 as stated: for workflows directory
"/w/p/workflows" the pipeline writes the demo general agent's file under
"/w/p/agents/", not under the documented "/w/p/agent_configs/". -/
theorem mcpsq_C9_counterexample :
    (Merged.phase2_2_create_agent_configs "/w/p/workflows"
        (Except.ok (Merged.phase2_1_workflows "demo" []))).2.map Prod.fst =
      ["/w/p/agents/demo_general_agent.json"] ∧
    ("/w/p/agents/demo_general_agent.json" : String) ≠
      "/w/p/agent_configs/demo_general_agent.json" := by
  refine ⟨?_, ?_⟩ <;> decide

/-- Witness for the amended C9 at a concrete marker-free agent reply. -/
theorem mcpsq_C9_witness :
    Phase2._extract_configs_dir_from_response "done" "/w/p/designs.json" =
      joinPath (dirname "/w/p/designs.json") "agent_configs" :=
  (mcpsq_C9_agent_file_layout_amended "/w/p/workflows" "/w/p/designs.json" "done" []).2.2
    (by decide)

theorem bucketOf_spec (t : String) :
    (Merged.bucketOf t = Merged.Bucket.create ↔
      Merged.containsAny (Merged.lowerStr (Merged.unprefixedToolName t))
        ["create", "add", "new"] = true) ∧
    (Merged.bucketOf t = Merged.Bucket.readB ↔
      (Merged.containsAny (Merged.lowerStr (Merged.unprefixedToolName t))
        ["create", "add", "new"] = false ∧
       Merged.containsAny (Merged.lowerStr (Merged.unprefixedToolName t))
        ["read", "get", "list", "fetch"] = true)) ∧
    (Merged.bucketOf t = Merged.Bucket.update ↔
      (Merged.containsAny (Merged.lowerStr (Merged.unprefixedToolName t))
        ["create", "add", "new"] = false ∧
       Merged.containsAny (Merged.lowerStr (Merged.unprefixedToolName t))
        ["read", "get", "list", "fetch"] = false ∧
       Merged.containsAny (Merged.lowerStr (Merged.unprefixedToolName t))
        ["update", "edit", "modify"] = true)) ∧
    (Merged.bucketOf t = Merged.Bucket.delete ↔
      (Merged.containsAny (Merged.lowerStr (Merged.unprefixedToolName t))
        ["create", "add", "new"] = false ∧
       Merged.containsAny (Merged.lowerStr (Merged.unprefixedToolName t))
        ["read", "get", "list", "fetch"] = false ∧
       Merged.containsAny (Merged.lowerStr (Merged.unprefixedToolName t))
        ["update", "edit", "modify"] = false ∧
       Merged.containsAny (Merged.lowerStr (Merged.unprefixedToolName t))
        ["delete", "remove"] = true)) ∧
    (Merged.bucketOf t = Merged.Bucket.query ↔
      (Merged.containsAny (Merged.lowerStr (Merged.unprefixedToolName t))
        ["create", "add", "new"] = false ∧
       Merged.containsAny (Merged.lowerStr (Merged.unprefixedToolName t))
        ["read", "get", "list", "fetch"] = false ∧
       Merged.containsAny (Merged.lowerStr (Merged.unprefixedToolName t))
        ["update", "edit", "modify"] = false ∧
       Merged.containsAny (Merged.lowerStr (Merged.unprefixedToolName t))
        ["delete", "remove"] = false ∧
       Merged.containsAny (Merged.lowerStr (Merged.unprefixedToolName t))
        ["query", "search", "find"] = true)) ∧
    (Merged.bucketOf t = Merged.Bucket.other ↔
      (Merged.containsAny (Merged.lowerStr (Merged.unprefixedToolName t))
        ["create", "add", "new"] = false ∧
       Merged.containsAny (Merged.lowerStr (Merged.unprefixedToolName t))
        ["read", "get", "list", "fetch"] = false ∧
       Merged.containsAny (Merged.lowerStr (Merged.unprefixedToolName t))
        ["update", "edit", "modify"] = false ∧
       Merged.containsAny (Merged.lowerStr (Merged.unprefixedToolName t))
        ["delete", "remove"] = false ∧
       Merged.containsAny (Merged.lowerStr (Merged.unprefixedToolName t))
        ["query", "search", "find"] = false)) := by
  unfold Merged.bucketOf
  by_cases h1 : Merged.containsAny (Merged.lowerStr (Merged.unprefixedToolName t))
      ["create", "add", "new"] = true <;>
  by_cases h2 : Merged.containsAny (Merged.lowerStr (Merged.unprefixedToolName t))
      ["read", "get", "list", "fetch"] = true <;>
  by_cases h3 : Merged.containsAny (Merged.lowerStr (Merged.unprefixedToolName t))
      ["update", "edit", "modify"] = true <;>
  by_cases h4 : Merged.containsAny (Merged.lowerStr (Merged.unprefixedToolName t))
      ["delete", "remove"] = true <;>
  by_cases h5 : Merged.containsAny (Merged.lowerStr (Merged.unprefixedToolName t))
      ["query", "search", "find"] = true <;>
    simp [h1, h2, h3, h4, h5, Bool.not_eq_true]

theorem crudWorkflowCfg_domain (n : String) (s : List String) :
    (Merged.crudWorkflowCfg n s).domain = some "data_management" := rfl

theorem queryWorkflowCfg_domain (n : String) (s : List String) :
    (Merged.queryWorkflowCfg n s).domain = some "information_retrieval" := rfl

theorem generalWorkflowCfg_domain (n : String) (s : List String) :
    (Merged.generalWorkflowCfg n s).domain = some "general" := rfl

/-- Claim C4: rule-based workflow synthesis classifies each tool's
un-prefixed lowercased name by substring match into the fixed buckets
(first matching bucket wins, unmatched tools are other); it emits the CRUD
workflow (first two creates then first two reads, discovery order) exactly
when both the create and read buckets are non-empty, the query workflow
(first three query tools) exactly when the query bucket is non-empty, and
always the general workflow over the first ten discovered tools. -/
theorem mcpsq_C4_rule_based_workflows (mcp_name : String) (tools : List String) :
    (∀ t : String, Merged.bucketOf t = Merged.Bucket.create ↔
      Merged.containsAny (Merged.lowerStr (Merged.unprefixedToolName t))
        ["create", "add", "new"] = true) ∧
    (∀ t : String, Merged.bucketOf t = Merged.Bucket.readB ↔
      (Merged.containsAny (Merged.lowerStr (Merged.unprefixedToolName t))
        ["create", "add", "new"] = false ∧
       Merged.containsAny (Merged.lowerStr (Merged.unprefixedToolName t))
        ["read", "get", "list", "fetch"] = true)) ∧
    (∀ t : String, Merged.bucketOf t = Merged.Bucket.update ↔
      (Merged.containsAny (Merged.lowerStr (Merged.unprefixedToolName t))
        ["create", "add", "new"] = false ∧
       Merged.containsAny (Merged.lowerStr (Merged.unprefixedToolName t))
        ["read", "get", "list", "fetch"] = false ∧
       Merged.containsAny (Merged.lowerStr (Merged.unprefixedToolName t))
        ["update", "edit", "modify"] = true)) ∧
    (∀ t : String, Merged.bucketOf t = Merged.Bucket.delete ↔
      (Merged.containsAny (Merged.lowerStr (Merged.unprefixedToolName t))
        ["create", "add", "new"] = false ∧
       Merged.containsAny (Merged.lowerStr (Merged.unprefixedToolName t))
        ["read", "get", "list", "fetch"] = false ∧
       Merged.containsAny (Merged.lowerStr (Merged.unprefixedToolName t))
        ["update", "edit", "modify"] = false ∧
       Merged.containsAny (Merged.lowerStr (Merged.unprefixedToolName t))
        ["delete", "remove"] = true)) ∧
    (∀ t : String, Merged.bucketOf t = Merged.Bucket.query ↔
      (Merged.containsAny (Merged.lowerStr (Merged.unprefixedToolName t))
        ["create", "add", "new"] = false ∧
       Merged.containsAny (Merged.lowerStr (Merged.unprefixedToolName t))
        ["read", "get", "list", "fetch"] = false ∧
       Merged.containsAny (Merged.lowerStr (Merged.unprefixedToolName t))
        ["update", "edit", "modify"] = false ∧
       Merged.containsAny (Merged.lowerStr (Merged.unprefixedToolName t))
        ["delete", "remove"] = false ∧
       Merged.containsAny (Merged.lowerStr (Merged.unprefixedToolName t))
        ["query", "search", "find"] = true)) ∧
    (∀ t : String, Merged.bucketOf t = Merged.Bucket.other ↔
      (Merged.containsAny (Merged.lowerStr (Merged.unprefixedToolName t))
        ["create", "add", "new"] = false ∧
       Merged.containsAny (Merged.lowerStr (Merged.unprefixedToolName t))
        ["read", "get", "list", "fetch"] = false ∧
       Merged.containsAny (Merged.lowerStr (Merged.unprefixedToolName t))
        ["update", "edit", "modify"] = false ∧
       Merged.containsAny (Merged.lowerStr (Merged.unprefixedToolName t))
        ["delete", "remove"] = false ∧
       Merged.containsAny (Merged.lowerStr (Merged.unprefixedToolName t))
        ["query", "search", "find"] = false)) ∧
    (∀ (b : Merged.Bucket) (t : String),
      t ∈ Merged.toolGroup tools b ↔ (t ∈ tools ∧ Merged.bucketOf t = b)) ∧
    ((Merged.phase2_1_workflows mcp_name tools).filter
        (fun w => w.domain == some "data_management") =
      if !(Merged.toolGroup tools Merged.Bucket.create).isEmpty &&
         !(Merged.toolGroup tools Merged.Bucket.readB).isEmpty
      then [Merged.crudWorkflowCfg mcp_name
            ((Merged.toolGroup tools Merged.Bucket.create).take 2 ++
             (Merged.toolGroup tools Merged.Bucket.readB).take 2)]
      else []) ∧
    ((Merged.phase2_1_workflows mcp_name tools).filter
        (fun w => w.domain == some "information_retrieval") =
      if !(Merged.toolGroup tools Merged.Bucket.query).isEmpty
      then [Merged.queryWorkflowCfg mcp_name
            ((Merged.toolGroup tools Merged.Bucket.query).take 3)]
      else []) ∧
    ((Merged.phase2_1_workflows mcp_name tools).filter
        (fun w => w.domain == some "general") =
      [Merged.generalWorkflowCfg mcp_name (tools.take 10)]) := by
  refine ⟨fun t => (bucketOf_spec t).1, fun t => (bucketOf_spec t).2.1,
    fun t => (bucketOf_spec t).2.2.1, fun t => (bucketOf_spec t).2.2.2.1,
    fun t => (bucketOf_spec t).2.2.2.2.1, fun t => (bucketOf_spec t).2.2.2.2.2,
    ?_, ?_, ?_, ?_⟩
  · intro b t
    unfold Merged.toolGroup
    rw [List.mem_filter]
    constructor
    · rintro ⟨ht, hb⟩
      exact ⟨ht, beq_iff_eq.mp hb⟩
    · rintro ⟨ht, hb⟩
      exact ⟨ht, beq_iff_eq.mpr hb⟩
  · cases hc : !(Merged.toolGroup tools Merged.Bucket.create).isEmpty &&
        !(Merged.toolGroup tools Merged.Bucket.readB).isEmpty <;>
    cases hq : !(Merged.toolGroup tools Merged.Bucket.query).isEmpty <;>
      simp [Merged.phase2_1_workflows, hc, hq, List.filter_append,
        crudWorkflowCfg_domain, queryWorkflowCfg_domain, generalWorkflowCfg_domain]
  · cases hc : !(Merged.toolGroup tools Merged.Bucket.create).isEmpty &&
        !(Merged.toolGroup tools Merged.Bucket.readB).isEmpty <;>
    cases hq : !(Merged.toolGroup tools Merged.Bucket.query).isEmpty <;>
      simp [Merged.phase2_1_workflows, hc, hq, List.filter_append,
        crudWorkflowCfg_domain, queryWorkflowCfg_domain, generalWorkflowCfg_domain]
  · cases hc : !(Merged.toolGroup tools Merged.Bucket.create).isEmpty &&
        !(Merged.toolGroup tools Merged.Bucket.readB).isEmpty <;>
    cases hq : !(Merged.toolGroup tools Merged.Bucket.query).isEmpty <;>
      simp [Merged.phase2_1_workflows, hc, hq, List.filter_append,
        crudWorkflowCfg_domain, queryWorkflowCfg_domain, generalWorkflowCfg_domain]
